import Mathlib

/-!
Shallow embedding of the s3-reproxy request multiplexer
(`src/server/mod.rs`, `src/config/s3_target.rs`).

Conventions of the embedding:
* Asynchronous fan-out is modelled by explicit reply functions
  `S3Remote → Option (Except SdkServiceError T)`: `none` models the
  "unreachable / no reply" outcome (mailbox send failure, dropped oneshot
  channel, or the actor reporting no response), `some (.ok t)` a successful
  reply, `some (.error e)` an SDK-level service error reply.
* The order of a collected list models the (arbitrary) completion order of
  the `buffer_unordered` fan-out; handlers are proved for every such order.
* MongoDB is modelled as reliable: the handlers' `map_err(InternalError)`
  branches for store failures are outside the embedding.
* The s3s_aws `try_from_aws` output conversions are modelled as the
  identity (they are external glue, out of the source's scope).
* A Rust `panic!`/`expect` is modelled by an `Option` result of the
  handler, `none` standing for the panic.
-/

/-- Error codes of the s3s `S3ErrorCode` enum that this development needs;
`from_bytes` on any other string is modelled as unparseable. -/
inductive S3ErrorCode where
  | InternalError
  | InvalidToken
  | NoSuchBucket
  | NoSuchKey
  | AccessDenied
  | NotImplemented
  deriving DecidableEq, Repr

/-- Embedding of `S3ErrorCode::from_bytes` restricted to the codes above. -/
def s3ErrorCodeFromBytes (s : String) : Option S3ErrorCode :=
  if s = "InternalError" then some .InternalError
  else if s = "InvalidToken" then some .InvalidToken
  else if s = "NoSuchBucket" then some .NoSuchBucket
  else if s = "NoSuchKey" then some .NoSuchKey
  else if s = "AccessDenied" then some .AccessDenied
  else if s = "NotImplemented" then some .NotImplemented
  else none

/-- Embedding of the s3s `S3Error` value built by the proxy: code plus the
optional metadata fields that `convert_sdk_err` fills in. -/
structure S3Error where
  code : S3ErrorCode
  message : Option String
  request_id : Option String
  status_code : Option Nat
  deriving DecidableEq, Repr

deriving instance DecidableEq for Except

/-- Embedding of `S3Error::new(code)`: all metadata unset. -/
def S3Error.new (c : S3ErrorCode) : S3Error :=
  { code := c, message := none, request_id := none, status_code := none }

/-- Metadata of an SDK-level service error (`ServiceError` plus its
`ProvideErrorMetadata` view and raw HTTP status), as read by
`convert_sdk_err`. -/
structure SdkServiceError where
  code : Option String
  message : Option String
  request_id : Option String
  http_status : Nat
  deriving DecidableEq, Repr

/-- Embedding of `convert_sdk_err` (src/server/mod.rs:42): start from
`InternalError`, overwrite the code when the SDK code string parses as a
known `S3ErrorCode`, copy message and request id when present, and always
set the HTTP status from the raw response. -/
def convertSdkErr (sdk : SdkServiceError) : S3Error :=
  let s := S3Error.new .InternalError
  let s := match sdk.code.bind s3ErrorCodeFromBytes with
    | some c => { s with code := c }
    | none => s
  let s := match sdk.message with
    | some m => { s with message := some m }
    | none => s
  let s := match sdk.request_id with
    | some i => { s with request_id := some i }
    | none => s
  { s with status_code := some sdk.http_status }

/-- Embedding of a configured remote (`S3Target` in
src/config/s3_target.rs plus the live `S3Remote` handle): the fields the
routing logic reads.  The mailbox is modelled by the reply functions the
handlers receive. -/
structure S3Remote where
  name : String
  priority : Nat
  read_request : Bool
  deriving DecidableEq, Repr

/-- Embedding of Rust `bool::cmp` (`false < true`). -/
def boolCompare (x y : Bool) : Ordering :=
  match x, y with
  | false, false => .eq
  | false, true => .lt
  | true, false => .gt
  | true, true => .eq

/-- Embedding of the read-router comparator
`b.read_request.cmp(&a.read_request).then_with(|| b.priority.cmp(&a.priority))`
(src/server/mod.rs:491): descending read-eligibility, then descending
priority. -/
def cmpRemote (a b : S3Remote) : Ordering :=
  (boolCompare b.read_request a.read_request).then (compare b.priority a.priority)

/-- Relation "a sorts no later than b" induced by `cmpRemote`, as used by
the stable sort. -/
def remoteLe (a b : S3Remote) : Prop :=
  cmpRemote a b ≠ Ordering.gt

instance : DecidableRel remoteLe := fun a b => by
  unfold remoteLe
  infer_instance

/-- Embedding of `self.remotes.iter().sorted_by(cmpRemote)`
(itertools `sorted_by` is a stable sort; `List.insertionSort` is the
stable sort of the library). -/
def readOrder (remotes : List S3Remote) : List S3Remote :=
  remotes.insertionSort remoteLe

/-- Characterization of `remoteLe` in terms of the composite key
(read_request descending, priority descending). -/
theorem remoteLe_iff (a b : S3Remote) :
    remoteLe a b ↔
      (b.read_request = false ∧ a.read_request = true) ∨
        (b.read_request = a.read_request ∧ b.priority ≤ a.priority) := by
  unfold remoteLe cmpRemote boolCompare
  rcases ha : a.read_request <;> rcases hb : b.read_request <;>
    simp [Ordering.then] <;>
    rcases hc : compare b.priority a.priority <;>
    simp_all [Nat.compare_eq_lt, Nat.compare_eq_eq, Nat.compare_eq_gt] <;>
    omega

instance : IsTotal S3Remote remoteLe := by
  constructor
  intro a b
  rw [remoteLe_iff, remoteLe_iff]
  rcases ha : a.read_request <;> rcases hb : b.read_request <;> simp <;> omega

instance : IsTrans S3Remote remoteLe := by
  constructor
  intro a b c hab hbc
  rw [remoteLe_iff] at hab hbc ⊢
  rcases ha : a.read_request <;> rcases hb : b.read_request <;>
    rcases hc : c.read_request <;> simp_all <;> omega

/-- Fan-out result collection (src/server/mod.rs:387..407 and the other
write handlers): each remote either yields no reply (`filter_map` drops
it) or a `(name, result)` pair. -/
def collectReplies {T : Type} (remotes : List S3Remote)
    (reply : S3Remote → Option (Except SdkServiceError T)) :
    List (String × Except SdkServiceError T) :=
  remotes.filterMap fun r => (reply r).map fun res => (r.name, res)

/-- Embedding of the `partition_map` of `output_remote_inconsistent`
(src/server/mod.rs:701): split collected `(remote, result)` pairs into
successes and failures, preserving order. -/
def partitionMapResults {T : Type} :
    List (String × Except SdkServiceError T) →
      List (String × T) × List (String × SdkServiceError)
  | [] => ([], [])
  | (r, .ok o) :: rest =>
      let (s, f) := partitionMapResults rest
      ((r, o) :: s, f)
  | (r, .error e) :: rest =>
      let (s, f) := partitionMapResults rest
      (s, (r, e) :: f)

/-- Embedding of `output_remote_inconsistent` (src/server/mod.rs:697):
no failures → first success, or `InternalError` when nothing was
collected; no successes → first failure converted; mixed → first
success. -/
def outputRemoteInconsistent {T : Type}
    (results : List (String × Except SdkServiceError T)) : Except S3Error T :=
  match partitionMapResults results with
  | ((_, reply) :: _, []) => .ok reply
  | ([], []) => .error (S3Error.new .InternalError)
  | ([], (_, e) :: _) => .error (convertSdkErr e)
  | ((_, reply) :: _, _ :: _) => .ok reply

/-- Write fan-out (§4.C): dispatch to every remote, collect the replies,
apply the inconsistency policy. -/
def fanoutWrite {T : Type} (remotes : List S3Remote)
    (reply : S3Remote → Option (Except SdkServiceError T)) : Except S3Error T :=
  outputRemoteInconsistent (collectReplies remotes reply)

/-- Embedding of the `put_object` fan-out outcome (src/server/mod.rs:369). -/
def putObject {T : Type} (remotes : List S3Remote)
    (reply : S3Remote → Option (Except SdkServiceError T)) : Except S3Error T :=
  fanoutWrite remotes reply

/-- Embedding of the `delete_object` fan-out outcome (src/server/mod.rs:450). -/
def deleteObject {T : Type} (remotes : List S3Remote)
    (reply : S3Remote → Option (Except SdkServiceError T)) : Except S3Error T :=
  fanoutWrite remotes reply

/-- Embedding of the `delete_objects` fan-out outcome (src/server/mod.rs:414). -/
def deleteObjects {T : Type} (remotes : List S3Remote)
    (reply : S3Remote → Option (Except SdkServiceError T)) : Except S3Error T :=
  fanoutWrite remotes reply

/-- Sequential read loop (src/server/mod.rs:499..518): walk the ordered
remotes; a remote with no reply is skipped (its name is recorded as
tried), the first remote with a reply ends the loop.  Returns the names
of the remotes that were sent a request and the terminating
`(result, remote name)` pair, if any. -/
def routeRead {T : Type} (reply : S3Remote → Option (Except SdkServiceError T)) :
    List S3Remote → List String × Option (Except SdkServiceError T × String)
  | [] => ([], none)
  | r :: rest =>
      match reply r with
      | some out => ([r.name], some (out, r.name))
      | none =>
          let (sent, found) := routeRead reply rest
          (r.name :: sent, found)

/-- Conversion of the routed result to the client reply
(src/server/mod.rs:526): a service error is converted by
`convert_sdk_err`, a success is forwarded. -/
def forwardRead {T : Type} (res : Except SdkServiceError T) : Except S3Error T :=
  match res with
  | .ok t => .ok t
  | .error e => .error (convertSdkErr e)

/-- Read router (§4.D), shared shape of `get_object` and `head_object`:
sort, try sequentially, forward the first reply, `InternalError` when
every remote was skipped. -/
def routedRead {T : Type} (remotes : List S3Remote)
    (reply : S3Remote → Option (Except SdkServiceError T)) :
    Except S3Error T × List String :=
  match routeRead reply (readOrder remotes) with
  | (sent, none) => (.error (S3Error.new .InternalError), sent)
  | (sent, some (res, _)) => (forwardRead res, sent)

/-- Embedding of the `get_object` handler outcome (src/server/mod.rs:486). -/
def getObject {T : Type} (remotes : List S3Remote)
    (reply : S3Remote → Option (Except SdkServiceError T)) :
    Except S3Error T × List String :=
  routedRead remotes reply

/-- Embedding of the `head_object` handler outcome (src/server/mod.rs:533). -/
def headObject {T : Type} (remotes : List S3Remote)
    (reply : S3Remote → Option (Except SdkServiceError T)) :
    Except S3Error T × List String :=
  routedRead remotes reply

/-- Modelled from the spec: identifiers of the metadata store
(`mongodb::bson::oid::ObjectId`, whose source module `src/db.rs` is not in
scope).  A record id is a natural number; a client-supplied token string is
abstracted as either the encoding of an id (`some id`, the image of
`to_hex`) or an unparseable string (`none`). -/
def OidString : Type := Option Nat

instance : DecidableEq OidString := inferInstanceAs (DecidableEq (Option Nat))

instance : Repr OidString := inferInstanceAs (Repr (Option Nat))

/-- Modelled from the spec: `ObjectId::parse_str` on the abstract string. -/
def parseOid (s : OidString) : Option Nat := s

/-- Modelled from the spec: `ObjectId::to_hex`, producing a string that
parses back to the same id. -/
def toHexOid (id : Nat) : OidString := some id

/-- Modelled from the spec (§3): lifecycle status of a per-remote
multipart upload id, `status ∈ \x7bOpen, Cancelled\x7d` (`PartUploadStatus` in
the missing `src/db.rs`). -/
inductive PartUploadStatus where
  | Open
  | Cancelled
  deriving DecidableEq, Repr

/-- Modelled from the spec (§3): `RemoteMultipartUploadId`, the tuple
`(remote_name, upload_id, status)`. -/
structure RemoteMultipartUploadId where
  remote_name : String
  upload_id : String
  status : PartUploadStatus
  deriving DecidableEq, Repr

/-- Modelled from the spec (§4.E step 4): `upload.cancelled()` marks the
entry `Cancelled` (the method lives in the missing `src/db.rs`). -/
def RemoteMultipartUploadId.cancelled (u : RemoteMultipartUploadId) :
    RemoteMultipartUploadId :=
  { u with status := .Cancelled }

/-- Modelled from the spec (§3): the persistent `MultipartUploadIds`
record (its server-assigned id is the key it is stored under). -/
structure MultipartUploadIds where
  upload_ids : List RemoteMultipartUploadId
  created_at : Nat
  completed_at : Option Nat
  aborted_at : Option Nat
  deriving DecidableEq, Repr

/-- Modelled from the spec (§6): the `multipart_upload_ids` collection,
documents keyed by record id, plus the next server-assigned id. -/
structure MpDb where
  recs : List (Nat × MultipartUploadIds)
  fresh : Nat
  deriving DecidableEq, Repr

/-- Modelled from the spec: lookup by record id in the collection. -/
def lookupMultipart (db : MpDb) (id : Nat) : Option MultipartUploadIds :=
  (db.recs.find? fun p => p.1 == id).map Prod.snd

/-- Embedding of the `find_one` filter of `initiate_multipart`
(src/server/mod.rs:749): the document with this id, provided
`completed_at` and `aborted_at` are both unset. -/
def findLive (db : MpDb) (id : Nat) : Option MultipartUploadIds :=
  (lookupMultipart db id).bind fun r =>
    if r.completed_at = none ∧ r.aborted_at = none then some r else none

/-- Modelled from the spec: `insert_one` into `multipart_upload_ids`,
returning the new store and the server-assigned id. -/
def insertMultipart (db : MpDb) (rec : MultipartUploadIds) : MpDb × Nat :=
  ({ recs := (db.fresh, rec) :: db.recs, fresh := db.fresh + 1 }, db.fresh)

/-- Resolution of record entries to live remote handles inside
`initiate_multipart` (src/server/mod.rs:764): an `Open` entry is paired
with the configured remote of the same name (if any), a `Cancelled`
entry with no remote. -/
def resolveRemotes (remotes : List S3Remote)
    (ids : List RemoteMultipartUploadId) :
    List (Option S3Remote × RemoteMultipartUploadId) :=
  ids.map fun upload =>
    match upload.status with
    | .Open => (remotes.find? fun r => r.name == upload.remote_name, upload)
    | .Cancelled => (none, upload)

/-- Embedding of `S3Reproxy::initiate_multipart` (src/server/mod.rs:738):
parse the client-visible upload id (`InvalidToken` on failure), find the
non-terminal record (`InvalidToken` when absent or terminal), and resolve
each entry to a remote handle. -/
def initiateMultipart (remotes : List S3Remote) (db : MpDb)
    (upload_id : OidString) :
    Except S3Error (Nat × List (Option S3Remote × RemoteMultipartUploadId)) :=
  match parseOid upload_id with
  | none => .error (S3Error.new .InvalidToken)
  | some id =>
      match findLive db id with
      | none => .error (S3Error.new .InvalidToken)
      | some ids => .ok (id, resolveRemotes remotes ids.upload_ids)

/-- Per-entry fan-out of `upload_part` (src/server/mod.rs:148): an entry
with a live remote is sent the part (its name is recorded); no reply
marks the entry `Cancelled` and contributes no result, a reply keeps the
entry and contributes `(name, result)`; an entry without a remote is
skipped.  Returns the updated entries, the collected results, and the
names of the remotes that were sent a request. -/
def uploadPartStep {T : Type}
    (f : S3Remote → RemoteMultipartUploadId → Option (Except SdkServiceError T)) :
    List (Option S3Remote × RemoteMultipartUploadId) →
      List RemoteMultipartUploadId × List (String × Except SdkServiceError T) ×
        List String
  | [] => ([], [], [])
  | (some r, u) :: rest =>
      let (ids, results, sent) := uploadPartStep f rest
      match f r u with
      | none => (u.cancelled :: ids, results, r.name :: sent)
      | some res => (u :: ids, (r.name, res) :: results, r.name :: sent)
  | (none, u) :: rest =>
      let (ids, results, sent) := uploadPartStep f rest
      (u :: ids, results, sent)

/-- Embedding of the `upload_part` handler (src/server/mod.rs:109):
resolve the record, fan the part out to the live `Open` entries, apply
the inconsistency policy, and — only when that policy yields a success —
persist the updated `upload_ids` (`$set`, src/server/mod.rs:181); the `?`
on `output_remote_inconsistent` (src/server/mod.rs:179) returns the error
before the persistence step runs.  Returns the client outcome, the
persisted `upload_ids` payload (when the update ran), and the names of
the remotes contacted. -/
def uploadPart {T : Type} (remotes : List S3Remote) (db : MpDb)
    (upload_id : OidString)
    (f : S3Remote → RemoteMultipartUploadId → Option (Except SdkServiceError T)) :
    Except S3Error T × Option (List RemoteMultipartUploadId) × List String :=
  match initiateMultipart remotes db upload_id with
  | .error e => (.error e, none, [])
  | .ok (_, entries) =>
      let (ids, results, sent) := uploadPartStep f entries
      match outputRemoteInconsistent results with
      | .error e => (.error e, none, sent)
      | .ok out => (.ok out, some ids, sent)

/-- Per-entry fan-out of `complete_multipart_upload`
(src/server/mod.rs:211): an entry with a live remote is sent the
complete; no reply marks it `Cancelled`, any reply (success or service
error, the result is discarded) keeps it; an entry without a remote is
kept unchanged.  Returns the final entries and the names contacted. -/
def completeStep
    (g : S3Remote → RemoteMultipartUploadId → Option (Except SdkServiceError Unit)) :
    List (Option S3Remote × RemoteMultipartUploadId) →
      List RemoteMultipartUploadId × List String
  | [] => ([], [])
  | (some r, u) :: rest =>
      let (ids, sent) := completeStep g rest
      match g r u with
      | none => (u.cancelled :: ids, r.name :: sent)
      | some _ => (u :: ids, r.name :: sent)
  | (none, u) :: rest =>
      let (ids, sent) := completeStep g rest
      (u :: ids, sent)

/-- Payload of the `$set` document written by
`complete_multipart_upload` (src/server/mod.rs:253): the final
`upload_ids`, and `completed_at` exactly in the all-`Open` branch. -/
structure CompleteSet where
  upload_ids : List RemoteMultipartUploadId
  completed_at : Option Nat
  deriving DecidableEq, Repr

/-- Client-visible output of `complete_multipart_upload`
(src/server/mod.rs:261): the echoed bucket and key. -/
structure CompleteMultipartUploadOutput where
  bucket : Option String
  key : Option String
  deriving DecidableEq, Repr

/-- Embedding of the `complete_multipart_upload` handler
(src/server/mod.rs:202): resolve the record, fan the complete out, and
persist — with `completed_at = now` and a success reply when every final
entry is `Open`, without `completed_at` and with `InternalError`
otherwise.  Returns the client outcome, the persisted `$set` payload
(when the update ran), and the names contacted. -/
def completeMultipartUpload (remotes : List S3Remote) (db : MpDb)
    (upload_id : OidString)
    (g : S3Remote → RemoteMultipartUploadId → Option (Except SdkServiceError Unit))
    (bucket key : Option String) (now : Nat) :
    Except S3Error CompleteMultipartUploadOutput × Option CompleteSet ×
      List String :=
  match initiateMultipart remotes db upload_id with
  | .error e => (.error e, none, [])
  | .ok (_, entries) =>
      let (results, sent) := completeStep g entries
      if results.all fun e => e.status == .Open then
        (.ok { bucket := bucket, key := key },
          some { upload_ids := results, completed_at := some now }, sent)
      else
        (.error (S3Error.new .InternalError),
          some { upload_ids := results, completed_at := none }, sent)

/-- Embedding of the s3s `Bucket` dto: the fields `list_buckets` fills. -/
structure Bucket where
  creation_date : Option Nat
  name : Option String
  deriving DecidableEq, Repr

/-- Embedding of the s3s `ListBucketsOutput` dto. -/
structure ListBucketsOutput where
  buckets : Option (List Bucket)
  owner : Option Unit
  deriving DecidableEq, Repr

/-- Embedding of the `list_buckets` handler (src/server/mod.rs:64): the
request is ignored and a single bucket named after the configured virtual
bucket is returned; no remote is contacted. -/
def listBuckets (bucket : String) : ListBucketsOutput × List String :=
  ({ buckets := some [{ creation_date := none, name := some bucket }],
     owner := none }, [])

/-- Embedding of the `head_bucket` handler (src/server/mod.rs:93): reject
with `NoSuchBucket` unless the request names the configured bucket; no
remote is contacted. -/
def headBucket (bucket : String) (reqBucket : String) :
    Except S3Error Unit × List String :=
  if reqBucket ≠ bucket then (.error (S3Error.new .NoSuchBucket), [])
  else (.ok (), [])

/-- Embedding of the `get_bucket_location` handler (src/server/mod.rs:78):
same bucket check as `head_bucket`, default output; no remote is
contacted. -/
def getBucketLocation (bucket : String) (reqBucket : String) :
    Except S3Error Unit × List String :=
  if reqBucket ≠ bucket then (.error (S3Error.new .NoSuchBucket), [])
  else (.ok (), [])

/-- Reply of a remote to `CreateMultipartUpload`: the SDK output's
`upload_id` field is optional. -/
structure CreateMultipartUploadSdkOutput where
  upload_id : Option String
  deriving DecidableEq, Repr

/-- Client-visible output of `create_multipart_upload`
(src/server/mod.rs:361): the echoed bucket and key and the record id as
the upload id. -/
structure CreateMultipartUploadOutput where
  bucket : Option String
  key : Option String
  upload_id : Option OidString
  deriving DecidableEq, Repr

/-- Collection of `RemoteMultipartUploadId` entries from the
`create_multipart_upload` replies (src/server/mod.rs:324): a service
error is dropped, a success contributes an `Open` entry carrying the
reply's upload id — the `expect("upload_id missing")` on a success
without an upload id is modelled by `none`. -/
def collectCreateIds :
    List (String × Except SdkServiceError CreateMultipartUploadSdkOutput) →
      Option (List RemoteMultipartUploadId)
  | [] => some []
  | (n, .ok o) :: rest =>
      match o.upload_id with
      | none => none
      | some uid =>
          (collectCreateIds rest).map
            fun ids => { remote_name := n, upload_id := uid,
                         status := .Open } :: ids
  | (_, .error _) :: rest => collectCreateIds rest

/-- Embedding of the `create_multipart_upload` handler
(src/server/mod.rs:294): fan out to every remote, keep an `Open` entry
per successful reply, insert the record (failed remotes simply absent,
no error surfaced), and return success with the record id as the
client-visible upload id.  The outer `Option` is `none` exactly when the
handler panics on a success without an upload id. -/
def createMultipartUpload (remotes : List S3Remote)
    (reply : S3Remote → Option (Except SdkServiceError CreateMultipartUploadSdkOutput))
    (db : MpDb) (now : Nat) (bucket key : Option String) :
    Option (MpDb × Except S3Error CreateMultipartUploadOutput) :=
  match collectCreateIds (collectReplies remotes reply) with
  | none => none
  | some ids =>
      let record : MultipartUploadIds :=
        { upload_ids := ids, created_at := now,
          completed_at := none, aborted_at := none }
      let (db2, id) := insertMultipart db record
      some (db2, .ok { bucket := bucket, key := key,
                       upload_id := some (toHexOid id) })

/-- Modelled from the spec (§3): the persistent `ListObjectTokens` record
(its server-assigned id is the key it is stored under). -/
structure ListObjectTokens where
  start_after : String
  created_at : Nat
  consumed_at : Option Nat
  deriving DecidableEq, Repr

/-- Modelled from the spec (§6): the `list_object_tokens` collection,
documents keyed by record id, plus the next server-assigned id. -/
structure TokenDb where
  recs : List (Nat × ListObjectTokens)
  fresh : Nat
  deriving DecidableEq, Repr

/-- Modelled from the spec: lookup by record id in the collection. -/
def lookupToken (db : TokenDb) (id : Nat) : Option ListObjectTokens :=
  (db.recs.find? fun p => p.1 == id).map Prod.snd

/-- Embedding of the `find_one_and_update` of `list_objects_v2`
(src/server/mod.rs:592): return the document with this id as it was
before the update (if any) and mark it `consumed_at = now` in the
store. -/
def consumeToken (db : TokenDb) (id : Nat) (now : Nat) :
    TokenDb × Option ListObjectTokens :=
  match lookupToken db id with
  | none => (db, none)
  | some rec =>
      ({ db with
          recs := db.recs.map fun p =>
            if p.1 = id then (p.1, { p.2 with consumed_at := some now })
            else p }, some rec)

/-- Modelled from the spec: `insert_one` into `list_object_tokens`,
returning the new store and the server-assigned id. -/
def insertToken (db : TokenDb) (rec : ListObjectTokens) : TokenDb × Nat :=
  ({ recs := (db.fresh, rec) :: db.recs, fresh := db.fresh + 1 }, db.fresh)

/-- Embedding of the s3s `Object` dto: the field `list_objects_v2`
reads. -/
structure ObjectEntry where
  key : Option String
  deriving DecidableEq, Repr

/-- Downstream reply of a remote to `ListObjects` (the aws
`ListObjectsV2Output` after conversion): page contents and the remote's
own (opaque) continuation token signalling more results. -/
structure ListObjectsDownstreamOutput where
  contents : Option (List ObjectEntry)
  next_continuation_token : Option String
  deriving DecidableEq, Repr

/-- Client-visible output of `list_objects_v2` (src/server/mod.rs:658):
the downstream page with both token fields rewritten by the proxy. -/
structure ListObjectsV2Output where
  contents : Option (List ObjectEntry)
  continuation_token : Option OidString
  next_continuation_token : Option OidString
  deriving DecidableEq, Repr

/-- Client request fields of `list_objects_v2` that the handler reads. -/
structure ListObjectsV2Input where
  continuation_token : Option OidString
  start_after : Option String
  pfx : Option String
  delimiter : Option String
  max_keys : Option Nat
  deriving DecidableEq, Repr

/-- Parameters of the downstream `ListObjects` message
(src/server/mod.rs:634): the client's filters with the effective
`start_after`. -/
structure ListParams where
  pfx : Option String
  delimiter : Option String
  max_keys : Option Nat
  start_after : Option String
  deriving DecidableEq, Repr

/-- Last key of the returned page
(`contents.as_ref().and_then(last).and_then(key)`,
src/server/mod.rs:665). -/
def lastContentsKey (contents : Option (List ObjectEntry)) : Option String :=
  (contents.bind fun l => l.getLast?).bind fun o => o.key

/-- Effective `start_after` of the downstream call
(src/server/mod.rs:626): the token's stored key takes precedence over the
client-supplied `start_after`. -/
def effectiveStartAfter (stored : Option String) (input : ListObjectsV2Input) :
    Option String :=
  stored.or input.start_after

/-- Minting phase of `list_objects_v2` (the rewrite of
`output.next_continuation_token`, src/server/mod.rs:663..691): when the
downstream signalled more results (`Some`) and the last key of the page
exists, insert a fresh `ListObjectTokens` record storing that key and
return its id as the proxy token; otherwise no token.  Returns the
(possibly extended) store and the minted token. -/
def mintNext (db : TokenDb) (out : ListObjectsDownstreamOutput)
    (now : Nat) : TokenDb × Option OidString :=
  match out.next_continuation_token with
  | none => (db, none)
  | some _ =>
      match lastContentsKey out.contents with
      | none => (db, none)
      | some last =>
          let (db2, id) := insertToken db
            { start_after := last, created_at := now, consumed_at := none }
          (db2, some (toHexOid id))

/-- Routing and output phase of `list_objects_v2`
(src/server/mod.rs:620..693), after the continuation token has been
resolved to `stored`: route the downstream list through the read router,
echo the client's token, and rewrite `next_continuation_token` through
the minting phase. -/
def listAfterToken (remotes : List S3Remote) (db : TokenDb)
    (stored : Option String) (input : ListObjectsV2Input)
    (reply : S3Remote → ListParams →
      Option (Except SdkServiceError ListObjectsDownstreamOutput))
    (now : Nat) :
    TokenDb × Except S3Error ListObjectsV2Output × List String :=
  match routeRead
      (fun r => reply r
        { pfx := input.pfx, delimiter := input.delimiter,
          max_keys := input.max_keys,
          start_after := effectiveStartAfter stored input })
      (readOrder remotes) with
  | (sent, none) => (db, .error (S3Error.new .InternalError), sent)
  | (sent, some (.error e, _)) => (db, .error (convertSdkErr e), sent)
  | (sent, some (.ok out, _)) =>
      ((mintNext db out now).1,
        .ok { contents := out.contents,
              continuation_token := input.continuation_token,
              next_continuation_token := (mintNext db out now).2 }, sent)

/-- Embedding of the `list_objects_v2` handler (src/server/mod.rs:581):
resolve the client's continuation token first — unparseable or unknown
tokens are rejected with `InvalidToken` before any remote is contacted,
a known token is marked consumed and its stored `start_after` used — then
list through the read router. -/
def listObjectsV2 (remotes : List S3Remote) (db : TokenDb)
    (input : ListObjectsV2Input)
    (reply : S3Remote → ListParams →
      Option (Except SdkServiceError ListObjectsDownstreamOutput))
    (now : Nat) :
    TokenDb × Except S3Error ListObjectsV2Output × List String :=
  match input.continuation_token with
  | none => listAfterToken remotes db none input reply now
  | some tok =>
      match parseOid tok with
      | none => (db, .error (S3Error.new .InvalidToken), [])
      | some id =>
          match consumeToken db id now with
          | (db2, none) => (db2, .error (S3Error.new .InvalidToken), [])
          | (db2, some rec) =>
              listAfterToken remotes db2 (some rec.start_after) input reply now

/-- Specification-side description of §4.E step 4: the entry each record
entry becomes after the fan-out, `Cancelled` exactly when a live remote
was contacted and failed at the transport level. -/
def transportMark {T : Type}
    (f : S3Remote → RemoteMultipartUploadId → Option (Except SdkServiceError T))
    (p : Option S3Remote × RemoteMultipartUploadId) : RemoteMultipartUploadId :=
  match p.1 with
  | some r =>
      match f r p.2 with
      | none => p.2.cancelled
      | some _ => p.2
  | none => p.2

/-- Specification-side description of the `complete_multipart_upload`
fan-out: identical transport-failure marking (a service error reply keeps
the entry). -/
def completeMark
    (g : S3Remote → RemoteMultipartUploadId → Option (Except SdkServiceError Unit))
    (p : Option S3Remote × RemoteMultipartUploadId) : RemoteMultipartUploadId :=
  match p.1 with
  | some r =>
      match g r p.2 with
      | none => p.2.cancelled
      | some _ => p.2
  | none => p.2

theorem partitionMapResults_cons_ok {T : Type} (n : String) (t : T)
    (tl : List (String × Except SdkServiceError T)) :
    partitionMapResults ((n, Except.ok t) :: tl) =
      ((n, t) :: (partitionMapResults tl).1, (partitionMapResults tl).2) := rfl

theorem partitionMapResults_cons_error {T : Type} (n : String)
    (e : SdkServiceError) (tl : List (String × Except SdkServiceError T)) :
    partitionMapResults ((n, Except.error e) :: tl) =
      ((partitionMapResults tl).1, (n, e) :: (partitionMapResults tl).2) := rfl

theorem mem_collectReplies {T : Type} (remotes : List S3Remote)
    (reply : S3Remote → Option (Except SdkServiceError T))
    (p : String × Except SdkServiceError T) :
    p ∈ collectReplies remotes reply ↔
      ∃ r ∈ remotes, r.name = p.1 ∧ reply r = some p.2 := by
  unfold collectReplies
  rw [List.mem_filterMap]
  constructor
  · rintro ⟨r, hr, hmap⟩
    rcases Option.map_eq_some'.mp hmap with ⟨res, hres, hp⟩
    exact ⟨r, hr, by rw [← hp], by rw [← hp, hres]⟩
  · rintro ⟨r, hr, hname, hres⟩
    refine ⟨r, hr, ?_⟩
    rw [hres, Option.map_some', hname]

theorem partitionMapResults_fst_ne_nil {T : Type}
    (l : List (String × Except SdkServiceError T)) :
    (partitionMapResults l).1 ≠ [] ↔ ∃ p ∈ l, ∃ t, p.2 = Except.ok t := by
  induction l with
  | nil => simp [partitionMapResults]
  | cons hd tl ih =>
      rcases hd with ⟨n, res⟩
      rcases res with e | t
      · rw [partitionMapResults_cons_error]
        constructor
        · intro h
          rcases ih.mp h with ⟨p, hp, t, ht⟩
          exact ⟨p, List.mem_cons_of_mem _ hp, t, ht⟩
        · rintro ⟨p, hp, t, ht⟩
          rcases List.mem_cons.mp hp with rfl | hp
          · simp at ht
          · exact ih.mpr ⟨p, hp, t, ht⟩
      · rw [partitionMapResults_cons_ok]
        simp

theorem outputRemoteInconsistent_ok_exists {T : Type}
    (results : List (String × Except SdkServiceError T)) :
    (∃ t, outputRemoteInconsistent results = .ok t) ↔
      (partitionMapResults results).1 ≠ [] := by
  unfold outputRemoteInconsistent
  rcases h : partitionMapResults results with ⟨ss, fs⟩
  rcases ss with _ | ⟨⟨n, t⟩, ss⟩ <;> rcases fs with _ | ⟨⟨m, e⟩, fs⟩ <;> simp

theorem outputRemoteInconsistent_head_ok {T : Type}
    (results : List (String × Except SdkServiceError T))
    (n : String) (t : T)
    (h : (partitionMapResults results).1.head? = some (n, t)) :
    outputRemoteInconsistent results = .ok t := by
  unfold outputRemoteInconsistent
  rcases hp : partitionMapResults results with ⟨ss, fs⟩
  rw [hp] at h
  rcases ss with _ | ⟨⟨n2, t2⟩, ss⟩
  · simp at h
  · simp at h
    rcases fs with _ | ⟨⟨m, e⟩, fs⟩ <;> simp [h.2]

theorem outputRemoteInconsistent_all_failed {T : Type}
    (results : List (String × Except SdkServiceError T))
    (n : String) (e : SdkServiceError)
    (hss : (partitionMapResults results).1 = [])
    (h : (partitionMapResults results).2.head? = some (n, e)) :
    outputRemoteInconsistent results = .error (convertSdkErr e) := by
  unfold outputRemoteInconsistent
  rcases hp : partitionMapResults results with ⟨ss, fs⟩
  rw [hp] at hss h
  subst hss
  rcases fs with _ | ⟨⟨m, e2⟩, fs⟩
  · simp at h
  · simp at h
    simp [h.1, h.2]

/-- Claim C1 — source src/server/mod.rs:697 (`output_remote_inconsistent`)
and the write fan-outs that feed it: with the collected replies
partitioned into successes and failures, (i) when a success was collected
the client receives the first collected success; (ii) when every
collected reply is a service error the client receives the first failure
converted to an S3 protocol error; (iii) when nothing was collected the
client receives `InternalError`; (iv) a write succeeds iff at least one
remote accepted it; `put_object`, `delete_object` and `delete_objects`
are exactly this fan-out. -/
theorem write_fanout_policy {T : Type} (remotes : List S3Remote)
    (reply : S3Remote → Option (Except SdkServiceError T)) :
    (∀ n t,
        (partitionMapResults (collectReplies remotes reply)).1.head? = some (n, t) →
        fanoutWrite remotes reply = .ok t)
    ∧ (∀ n e,
        (partitionMapResults (collectReplies remotes reply)).1 = [] →
        (partitionMapResults (collectReplies remotes reply)).2.head? = some (n, e) →
        fanoutWrite remotes reply = .error (convertSdkErr e))
    ∧ (collectReplies remotes reply = [] →
        fanoutWrite remotes reply = .error (S3Error.new .InternalError))
    ∧ ((∃ t, fanoutWrite remotes reply = .ok t) ↔
        ∃ r ∈ remotes, ∃ t, reply r = some (.ok t))
    ∧ putObject remotes reply = fanoutWrite remotes reply
    ∧ deleteObject remotes reply = fanoutWrite remotes reply
    ∧ deleteObjects remotes reply = fanoutWrite remotes reply := by
  refine ⟨?_, ?_, ?_, ?_, rfl, rfl, rfl⟩
  · intro n t h
    exact outputRemoteInconsistent_head_ok _ n t h
  · intro n e hss h
    exact outputRemoteInconsistent_all_failed _ n e hss h
  · intro h
    unfold fanoutWrite
    rw [h]
    rfl
  · rw [fanoutWrite, outputRemoteInconsistent_ok_exists,
      partitionMapResults_fst_ne_nil]
    constructor
    · rintro ⟨p, hp, t, ht⟩
      rcases (mem_collectReplies remotes reply p).mp hp with ⟨r, hr, _, hres⟩
      exact ⟨r, hr, t, by rw [hres, ht]⟩
    · rintro ⟨r, hr, t, ht⟩
      exact ⟨(r.name, .ok t),
        (mem_collectReplies remotes reply (r.name, .ok t)).mpr ⟨r, hr, rfl, ht⟩,
        t, rfl⟩

theorem routeRead_all_none {T : Type}
    (reply : S3Remote → Option (Except SdkServiceError T))
    (l : List S3Remote) (h : ∀ r ∈ l, reply r = none) :
    routeRead reply l = (l.map S3Remote.name, none) := by
  induction l with
  | nil => rfl
  | cons hd tl ih =>
      have hhd := h hd (List.mem_cons_self hd tl)
      simp [routeRead, hhd, ih fun r hr => h r (List.mem_cons_of_mem _ hr)]

theorem routeRead_found {T : Type}
    (reply : S3Remote → Option (Except SdkServiceError T))
    (pre post : List S3Remote) (r : S3Remote)
    (hpre : ∀ q ∈ pre, reply q = none)
    (res : Except SdkServiceError T) (hr : reply r = some res) :
    routeRead reply (pre ++ r :: post) =
      ((pre ++ [r]).map S3Remote.name, some (res, r.name)) := by
  induction pre with
  | nil => simp [routeRead, hr]
  | cons hd tl ih =>
      have hhd := hpre hd (List.mem_cons_self hd tl)
      rw [List.cons_append]
      simp [routeRead, hhd, ih fun q hq => hpre q (List.mem_cons_of_mem _ hq)]

/-- Claim C2 — source src/server/mod.rs:486..578 (`get_object`,
`head_object`), src/server/mod.rs:620..654 (the identical routing loop of
`list_objects_v2`) and src/config/s3_target.rs: the remotes are tried in
the order of the composite key (read_request descending, priority
descending) — the tried order is a permutation of the configured remotes
sorted by `remoteLe`; the first remote that delivers any reply
terminates the search and its reply, converted by `convert_sdk_err` when
it is a service error, is forwarded; remotes delivering no reply are
skipped; if every remote is skipped the client receives
`InternalError`.  The last two conjuncts state the skip-all and
error-forwarding behavior for the routed `ListObjects` call. -/
theorem read_router_policy {T : Type} (remotes : List S3Remote)
    (reply : S3Remote → Option (Except SdkServiceError T)) :
    (readOrder remotes).Perm remotes
    ∧ (readOrder remotes).Sorted remoteLe
    ∧ ((∀ r ∈ readOrder remotes, reply r = none) →
        getObject remotes reply =
          (.error (S3Error.new .InternalError),
            (readOrder remotes).map S3Remote.name))
    ∧ (∀ pre r post, readOrder remotes = pre ++ r :: post →
        (∀ q ∈ pre, reply q = none) →
        ∀ res, reply r = some res →
          getObject remotes reply =
            (forwardRead res, (pre ++ [r]).map S3Remote.name))
    ∧ headObject remotes reply = getObject remotes reply
    ∧ (∀ (db : TokenDb) (stored : Option String) (input : ListObjectsV2Input)
        (lreply : S3Remote → ListParams →
          Option (Except SdkServiceError ListObjectsDownstreamOutput))
        (now : Nat),
        (∀ r ∈ readOrder remotes, lreply r
            { pfx := input.pfx, delimiter := input.delimiter,
              max_keys := input.max_keys,
              start_after := effectiveStartAfter stored input } = none) →
        listAfterToken remotes db stored input lreply now =
          (db, .error (S3Error.new .InternalError),
            (readOrder remotes).map S3Remote.name))
    ∧ (∀ (db : TokenDb) (stored : Option String) (input : ListObjectsV2Input)
        (lreply : S3Remote → ListParams →
          Option (Except SdkServiceError ListObjectsDownstreamOutput))
        (now : Nat) pre r post (e : SdkServiceError),
        readOrder remotes = pre ++ r :: post →
        (∀ q ∈ pre, lreply q
            { pfx := input.pfx, delimiter := input.delimiter,
              max_keys := input.max_keys,
              start_after := effectiveStartAfter stored input } = none) →
        lreply r
            { pfx := input.pfx, delimiter := input.delimiter,
              max_keys := input.max_keys,
              start_after := effectiveStartAfter stored input } =
          some (.error e) →
        listAfterToken remotes db stored input lreply now =
          (db, .error (convertSdkErr e),
            (pre ++ [r]).map S3Remote.name)) := by
  refine ⟨List.perm_insertionSort remoteLe remotes,
    List.sorted_insertionSort remoteLe remotes, ?_, ?_, rfl, ?_, ?_⟩
  · intro h
    unfold getObject routedRead
    rw [routeRead_all_none reply _ h]
  · intro pre r post hdecomp hpre res hres
    unfold getObject routedRead
    rw [hdecomp, routeRead_found reply pre post r hpre res hres]
  · intro db stored input lreply now h
    unfold listAfterToken
    rw [routeRead_all_none _ _ h]
  · intro db stored input lreply now pre r post e hdecomp hpre hres
    unfold listAfterToken
    rw [hdecomp, routeRead_found _ pre post r hpre _ hres]

theorem uploadPartStep_fst {T : Type}
    (f : S3Remote → RemoteMultipartUploadId → Option (Except SdkServiceError T))
    (l : List (Option S3Remote × RemoteMultipartUploadId)) :
    (uploadPartStep f l).1 = l.map (transportMark f) := by
  induction l with
  | nil => rfl
  | cons hd tl ih =>
      rcases hd with ⟨ro, u⟩
      rcases ro with _ | r
      · simp [uploadPartStep, transportMark, ih]
      · rcases hf : f r u with _ | res <;>
          simp [uploadPartStep, transportMark, hf, ih]

theorem uploadPartStep_sent {T : Type}
    (f : S3Remote → RemoteMultipartUploadId → Option (Except SdkServiceError T))
    (l : List (Option S3Remote × RemoteMultipartUploadId)) :
    (uploadPartStep f l).2.2 = l.filterMap fun p => p.1.map S3Remote.name := by
  induction l with
  | nil => rfl
  | cons hd tl ih =>
      rcases hd with ⟨ro, u⟩
      rcases ro with _ | r
      · simp [uploadPartStep, ih]
      · rcases hf : f r u with _ | res <;> simp [uploadPartStep, hf, ih]

theorem completeStep_fst
    (g : S3Remote → RemoteMultipartUploadId → Option (Except SdkServiceError Unit))
    (l : List (Option S3Remote × RemoteMultipartUploadId)) :
    (completeStep g l).1 = l.map (completeMark g) := by
  induction l with
  | nil => rfl
  | cons hd tl ih =>
      rcases hd with ⟨ro, u⟩
      rcases ro with _ | r
      · simp [completeStep, completeMark, ih]
      · rcases hg : g r u with _ | res <;>
          simp [completeStep, completeMark, hg, ih]

theorem completeStep_snd
    (g : S3Remote → RemoteMultipartUploadId → Option (Except SdkServiceError Unit))
    (l : List (Option S3Remote × RemoteMultipartUploadId)) :
    (completeStep g l).2 = l.filterMap fun p => p.1.map S3Remote.name := by
  induction l with
  | nil => rfl
  | cons hd tl ih =>
      rcases hd with ⟨ro, u⟩
      rcases ro with _ | r
      · simp [completeStep, ih]
      · rcases hg : g r u with _ | res <;> simp [completeStep, hg, ih]

theorem mem_resolveRemotes (remotes : List S3Remote)
    (ids : List RemoteMultipartUploadId)
    (p : Option S3Remote × RemoteMultipartUploadId)
    (hp : p ∈ resolveRemotes remotes ids) :
    p.2 ∈ ids ∧ ∀ r, p.1 = some r →
      p.2.status = .Open ∧ r.name = p.2.remote_name := by
  unfold resolveRemotes at hp
  rcases List.mem_map.mp hp with ⟨u, hu, he⟩
  rcases hs : u.status with _ | _
  · rw [hs] at he
    rcases he
    refine ⟨hu, ?_⟩
    intro r hr
    have := List.find?_some hr
    exact ⟨hs, by simpa using this⟩
  · rw [hs] at he
    rcases he
    exact ⟨hu, by intro r hr; cases hr⟩

theorem completeMark_open_iff
    (g : S3Remote → RemoteMultipartUploadId → Option (Except SdkServiceError Unit))
    (p : Option S3Remote × RemoteMultipartUploadId) :
    ((completeMark g p).status == PartUploadStatus.Open) = true ↔
      p.2.status = .Open ∧ ∀ r, p.1 = some r → g r p.2 ≠ none := by
  rcases p with ⟨ro, u⟩
  rcases ro with _ | r
  · simp [completeMark]
  · rcases hg : g r u with _ | res
    · simp [completeMark, hg, RemoteMultipartUploadId.cancelled]
    · simp [completeMark, hg]

theorem completeStep_all_open
    (g : S3Remote → RemoteMultipartUploadId → Option (Except SdkServiceError Unit))
    (l : List (Option S3Remote × RemoteMultipartUploadId)) :
    ((completeStep g l).1.all fun e => e.status == PartUploadStatus.Open) = true ↔
      ∀ p ∈ l, p.2.status = .Open ∧ ∀ r, p.1 = some r → g r p.2 ≠ none := by
  rw [completeStep_fst, List.all_eq_true]
  constructor
  · intro h p hp
    exact (completeMark_open_iff g p).mp (h _ (List.mem_map_of_mem _ hp))
  · intro h x hx
    rcases List.mem_map.mp hx with ⟨p, hp, rfl⟩
    exact (completeMark_open_iff g p).mpr (h p hp)

theorem uploadPart_eq {T : Type} (remotes : List S3Remote) (db : MpDb)
    (uid : OidString)
    (f : S3Remote → RemoteMultipartUploadId → Option (Except SdkServiceError T))
    (id : Nat) (entries : List (Option S3Remote × RemoteMultipartUploadId))
    (hres : initiateMultipart remotes db uid = .ok (id, entries)) :
    uploadPart remotes db uid f =
      match outputRemoteInconsistent (uploadPartStep f entries).2.1 with
      | .error e => (.error e, none, (uploadPartStep f entries).2.2)
      | .ok out =>
          (.ok out, some (uploadPartStep f entries).1,
            (uploadPartStep f entries).2.2) := by
  unfold uploadPart
  rw [hres]

theorem completeMultipartUpload_eq (remotes : List S3Remote) (db : MpDb)
    (uid : OidString)
    (g : S3Remote → RemoteMultipartUploadId → Option (Except SdkServiceError Unit))
    (bucket key : Option String) (now : Nat)
    (id : Nat) (entries : List (Option S3Remote × RemoteMultipartUploadId))
    (hres : initiateMultipart remotes db uid = .ok (id, entries)) :
    completeMultipartUpload remotes db uid g bucket key now =
      if (completeStep g entries).1.all (fun e => e.status == .Open) then
        (.ok { bucket := bucket, key := key },
          some { upload_ids := (completeStep g entries).1,
                 completed_at := some now },
          (completeStep g entries).2)
      else
        (.error (S3Error.new .InternalError),
          some { upload_ids := (completeStep g entries).1,
                 completed_at := none },
          (completeStep g entries).2) := by
  unfold completeMultipartUpload
  rw [hres]

theorem cancelled_not_in_resolved_sends (remotes : List S3Remote)
    (ids : List RemoteMultipartUploadId)
    (hnodup : (ids.map RemoteMultipartUploadId.remote_name).Nodup)
    (u : RemoteMultipartUploadId) (hu : u ∈ ids)
    (hc : u.status = .Cancelled) :
    u.remote_name ∉
      (resolveRemotes remotes ids).filterMap fun p => p.1.map S3Remote.name := by
  intro hmem
  rcases List.mem_filterMap.mp hmem with ⟨p, hp, hmap⟩
  rcases Option.map_eq_some'.mp hmap with ⟨r, hr, hname⟩
  obtain ⟨hpmem, hopen⟩ := mem_resolveRemotes remotes ids p hp
  obtain ⟨hstat, hrn⟩ := hopen r hr
  have hup : u = p.2 :=
    List.inj_on_of_nodup_map hnodup hu hpmem (by rw [← hname, hrn])
  rw [hup] at hc
  rw [hc] at hstat
  simp at hstat

def cxRemote : S3Remote := { name := "r1", priority := 1, read_request := true }

def cxUpload : RemoteMultipartUploadId :=
  { remote_name := "r1", upload_id := "u1", status := .Open }

def cxDb : MpDb :=
  { recs := [(5, { upload_ids := [cxUpload], created_at := 0,
                   completed_at := none, aborted_at := none })], fresh := 6 }

/-- Claim C3 counterexample — src/server/mod.rs:179..195: with one `Open`
entry whose remote fails at the transport level, the fan-out marks the
entry `Cancelled` in memory, but `output_remote_inconsistent` sees no
collected reply, its `InternalError` propagates through `?`, and the
handler returns without persisting anything (persisted payload `none`):
persistence does not happen when the outcome reported to the client is an
error. -/
theorem upload_part_no_persist_on_error :
    uploadPart (T := Nat) [cxRemote] cxDb (some 5) (fun _ _ => none) =
      (.error (S3Error.new .InternalError), none, ["r1"])
    ∧ (uploadPartStep (T := Nat) (fun _ _ => none)
        (resolveRemotes [cxRemote] [cxUpload])).1 = [cxUpload.cancelled] :=
  ⟨by decide, by decide⟩

/-- Claim C3 (amended) — src/server/mod.rs:148..200: for every UploadPart
request that passes record resolution, the fan-out marks every entry
whose call failed at the transport level `Cancelled`
(`transportMark`), and this updated `upload_ids` set is persisted via
`$set upload_ids` exactly when the inconsistency policy reports a
success to the client; when every collected reply is a service error or
no reply was collected, the handler returns that error before the
persistence step, persisting nothing. -/
theorem upload_part_persistence {T : Type} (remotes : List S3Remote)
    (db : MpDb) (uid : OidString)
    (f : S3Remote → RemoteMultipartUploadId → Option (Except SdkServiceError T))
    (id : Nat) (entries : List (Option S3Remote × RemoteMultipartUploadId))
    (hres : initiateMultipart remotes db uid = .ok (id, entries)) :
    (∀ t, outputRemoteInconsistent (uploadPartStep f entries).2.1 = .ok t →
      uploadPart remotes db uid f =
        (.ok t, some (entries.map (transportMark f)),
          (uploadPartStep f entries).2.2))
    ∧ (∀ e, outputRemoteInconsistent (uploadPartStep f entries).2.1 = .error e →
      uploadPart remotes db uid f =
        (.error e, none, (uploadPartStep f entries).2.2)) := by
  constructor
  · intro t ht
    rw [uploadPart_eq remotes db uid f id entries hres, ht,
      uploadPartStep_fst]
  · intro e he
    rw [uploadPart_eq remotes db uid f id entries hres, he]

/-- Claim C3 witness: a concrete resolved request with a successful reply
persists the transport-marked entries. -/
theorem upload_part_persistence_witness :
    uploadPart (T := Nat) [cxRemote] cxDb (some 5) (fun _ _ => some (.ok 7)) =
      (.ok 7, some ([(some cxRemote, cxUpload)].map
        (transportMark fun _ _ => some (.ok 7))), ["r1"]) :=
  (upload_part_persistence [cxRemote] cxDb (some 5) (fun _ _ => some (.ok 7))
    5 [(some cxRemote, cxUpload)] (by decide)).1 7 (by decide)

/-- Claim C4 — src/server/mod.rs:764..776 (resolution maps `Cancelled`
entries to no remote handle) and the `upload_part` /
`complete_multipart_upload` fan-outs, which skip entries without a
handle: once an entry of the persisted record has status `Cancelled`,
neither handler sends a request to that remote (remote names of the
record assumed distinct, as one entry is created per configured
remote). -/
theorem cancelled_never_targeted {T : Type} (remotes : List S3Remote)
    (db : MpDb) (uid : OidString)
    (f : S3Remote → RemoteMultipartUploadId → Option (Except SdkServiceError T))
    (g : S3Remote → RemoteMultipartUploadId → Option (Except SdkServiceError Unit))
    (bucket key : Option String) (now : Nat)
    (id : Nat) (record : MultipartUploadIds)
    (hparse : parseOid uid = some id)
    (hfind : findLive db id = some record)
    (hnodup : (record.upload_ids.map RemoteMultipartUploadId.remote_name).Nodup)
    (u : RemoteMultipartUploadId) (hu : u ∈ record.upload_ids)
    (hc : u.status = .Cancelled) :
    u.remote_name ∉ (uploadPart remotes db uid f).2.2
    ∧ u.remote_name ∉
        (completeMultipartUpload remotes db uid g bucket key now).2.2 := by
  have hres : initiateMultipart remotes db uid =
      .ok (id, resolveRemotes remotes record.upload_ids) := by
    simp [initiateMultipart, hparse, hfind]
  have hnot := cancelled_not_in_resolved_sends remotes record.upload_ids
    hnodup u hu hc
  constructor
  · rw [uploadPart_eq remotes db uid f id _ hres]
    rcases houtput : outputRemoteInconsistent
        (uploadPartStep f (resolveRemotes remotes record.upload_ids)).2.1
      with e | t <;>
      (show u.remote_name ∉
          (uploadPartStep f (resolveRemotes remotes record.upload_ids)).2.2
       rw [uploadPartStep_sent]
       exact hnot)
  · rw [completeMultipartUpload_eq remotes db uid g bucket key now id _ hres]
    split <;>
      (show u.remote_name ∉
          (completeStep g (resolveRemotes remotes record.upload_ids)).2
       rw [completeStep_snd]
       exact hnot)

def cxUploadX : RemoteMultipartUploadId :=
  { remote_name := "rX", upload_id := "uX", status := .Cancelled }

def cxRecordX : MultipartUploadIds :=
  { upload_ids := [cxUpload, cxUploadX], created_at := 0,
    completed_at := none, aborted_at := none }

def cxDbX : MpDb := { recs := [(5, cxRecordX)], fresh := 6 }

/-- Claim C4 witness: with a record holding an `Open` entry for r1 and a
`Cancelled` entry for rX, neither fan-out contacts rX. -/
theorem cancelled_never_targeted_witness :
    "rX" ∉ (uploadPart (T := Nat) [cxRemote] cxDbX (some 5)
        fun _ _ => some (.ok 1)).2.2
    ∧ "rX" ∉ (completeMultipartUpload [cxRemote] cxDbX (some 5)
        (fun _ _ => some (.ok ())) (some "b") (some "k") 3).2.2 :=
  cancelled_never_targeted [cxRemote] cxDbX (some 5) (fun _ _ => some (.ok 1))
    (fun _ _ => some (.ok ())) (some "b") (some "k") 3 5 cxRecordX
    (by decide) (by decide) (by decide) cxUploadX (by decide) (by decide)

/-- Claim C5 — src/server/mod.rs:202..291: for a resolved
CompleteMultipartUpload, when every entry of the final record is `Open`
the record is persisted with `completed_at = now` and the client receives
success echoing bucket and key; otherwise the record is persisted with
the updated `upload_ids` but no `completed_at` and the client receives
`InternalError`; the all-`Open` condition holds iff every resolved entry
was `Open` and no contacted remote failed at the transport level. -/
theorem complete_multipart_outcome (remotes : List S3Remote) (db : MpDb)
    (uid : OidString)
    (g : S3Remote → RemoteMultipartUploadId → Option (Except SdkServiceError Unit))
    (bucket key : Option String) (now : Nat)
    (id : Nat) (entries : List (Option S3Remote × RemoteMultipartUploadId))
    (hres : initiateMultipart remotes db uid = .ok (id, entries)) :
    (((completeStep g entries).1.all
        fun e => e.status == PartUploadStatus.Open) = true →
      completeMultipartUpload remotes db uid g bucket key now =
        (.ok { bucket := bucket, key := key },
          some { upload_ids := (completeStep g entries).1,
                 completed_at := some now },
          (completeStep g entries).2))
    ∧ (((completeStep g entries).1.all
        fun e => e.status == PartUploadStatus.Open) = false →
      completeMultipartUpload remotes db uid g bucket key now =
        (.error (S3Error.new .InternalError),
          some { upload_ids := (completeStep g entries).1,
                 completed_at := none },
          (completeStep g entries).2))
    ∧ (((completeStep g entries).1.all
        fun e => e.status == PartUploadStatus.Open) = true ↔
        ∀ p ∈ entries, p.2.status = .Open ∧
          ∀ r, p.1 = some r → g r p.2 ≠ none) := by
  refine ⟨?_, ?_, completeStep_all_open g entries⟩
  · intro h
    rw [completeMultipartUpload_eq remotes db uid g bucket key now id entries
      hres]
    simp [h]
  · intro h
    rw [completeMultipartUpload_eq remotes db uid g bucket key now id entries
      hres]
    simp [h]

/-- Claim C5 witness: a record with one `Open` entry and a reachable
remote completes with `completed_at` set; a record that also carries a
`Cancelled` entry fails with `InternalError` and no `completed_at`. -/
theorem complete_multipart_outcome_witness :
    completeMultipartUpload [cxRemote] cxDb (some 5)
      (fun _ _ => some (.ok ())) (some "b") (some "k") 42 =
      (.ok { bucket := some "b", key := some "k" },
        some { upload_ids := [cxUpload], completed_at := some 42 }, ["r1"]) :=
  (complete_multipart_outcome [cxRemote] cxDb (some 5)
    (fun _ _ => some (.ok ())) (some "b") (some "k") 42 5
    [(some cxRemote, cxUpload)] (by decide)).1 (by decide)

def wRemoteA : S3Remote := { name := "wA", priority := 2, read_request := true }

def wRemoteB : S3Remote := { name := "wB", priority := 1, read_request := true }

def wErr : SdkServiceError :=
  { code := some "AccessDenied", message := some "denied",
    request_id := none, http_status := 403 }

/-- Claim C1 witness: a mixed fan-out (wA succeeds, wB replies with a
service error) reports the first collected success to the client. -/
theorem write_fanout_policy_witness :
    fanoutWrite (T := Nat) [wRemoteA, wRemoteB]
      (fun r => if r.name = "wA" then some (.ok 11) else some (.error wErr)) =
      .ok 11 :=
  (write_fanout_policy [wRemoteA, wRemoteB]
    fun r => if r.name = "wA" then some (.ok 11) else some (.error wErr)).1
    "wA" 11 (by decide)

def wReadA : S3Remote := { name := "qA", priority := 5, read_request := true }

def wReadB : S3Remote := { name := "qB", priority := 3, read_request := true }

/-- Claim C2 witness: with qA before qB in the read order, qA unreachable
and qB replying, the reply of qB is forwarded after qA was skipped. -/
theorem read_router_policy_witness :
    getObject (T := Nat) [wReadB, wReadA]
      (fun r => if r.name = "qB" then some (.ok 5) else none) =
      (forwardRead (.ok 5), ["qA", "qB"]) :=
  (read_router_policy [wReadB, wReadA]
    fun r => if r.name = "qB" then some (.ok 5) else none).2.2.2.1
    [wReadA] wReadB [] (by decide) (by decide) (.ok 5) (by decide)

theorem lookupToken_insertToken (db : TokenDb) (rec : ListObjectTokens) :
    lookupToken (insertToken db rec).1 (insertToken db rec).2 = some rec := by
  simp [lookupToken, insertToken]

theorem consumeToken_some (db : TokenDb) (id now : Nat)
    (rec : ListObjectTokens) (hlook : lookupToken db id = some rec) :
    consumeToken db id now = ((consumeToken db id now).1, some rec) := by
  unfold consumeToken
  rw [hlook]

theorem mintNext_spec (db : TokenDb) (out : ListObjectsDownstreamOutput)
    (now : Nat) :
    (∀ tok, (mintNext db out now).2 = some tok →
      ∃ id rec, parseOid tok = some id ∧
        lookupToken (mintNext db out now).1 id = some rec ∧
        some rec.start_after = lastContentsKey out.contents)
    ∧ ((mintNext db out now).2 ≠ none ↔
        out.next_continuation_token ≠ none ∧
          lastContentsKey out.contents ≠ none) := by
  rcases hnext : out.next_continuation_token with _ | dtok
  · simp [mintNext, hnext]
  · rcases hlast : lastContentsKey out.contents with _ | lastKey
    · simp [mintNext, hnext, hlast]
    · constructor
      · intro tok htok
        simp [mintNext, hnext, hlast] at htok
        refine ⟨db.fresh, ListObjectTokens.mk lastKey now none, ?_, ?_, ?_⟩
        · rw [← htok]
          rfl
        · simp [mintNext, hnext, hlast]
          exact lookupToken_insertToken db _
        · rfl
      · simp [mintNext, hnext, hlast]

theorem listAfterToken_ok_props (remotes : List S3Remote) (db : TokenDb)
    (stored : Option String) (input : ListObjectsV2Input)
    (reply : S3Remote → ListParams →
      Option (Except SdkServiceError ListObjectsDownstreamOutput))
    (now : Nat) (db2 : TokenDb) (o : ListObjectsV2Output) (sent : List String)
    (h : listAfterToken remotes db stored input reply now = (db2, .ok o, sent)) :
    o.continuation_token = input.continuation_token
    ∧ (∀ tok, o.next_continuation_token = some tok →
        ∃ id rec, parseOid tok = some id ∧ lookupToken db2 id = some rec ∧
          some rec.start_after = lastContentsKey o.contents) := by
  unfold listAfterToken at h
  split at h
  · simp at h
  · simp at h
  · rename_i sent1 out nm hroute
    simp only [Prod.mk.injEq, Except.ok.injEq] at h
    obtain ⟨hdb, hobj, hsent⟩ := h
    rw [← hobj]
    refine ⟨rfl, ?_⟩
    intro tok htok
    obtain ⟨id, rec, hp, hl, hs⟩ := (mintNext_spec db out now).1 tok htok
    exact ⟨id, rec, hp, by rw [← hdb]; exact hl, hs⟩

theorem listObjectsV2_token_resolution (remotes : List S3Remote)
    (db : TokenDb) (input : ListObjectsV2Input)
    (reply : S3Remote → ListParams →
      Option (Except SdkServiceError ListObjectsDownstreamOutput))
    (now : Nat) (tok : OidString) (id : Nat) (rec : ListObjectTokens)
    (htok : input.continuation_token = some tok)
    (hparse : parseOid tok = some id)
    (hlook : lookupToken db id = some rec) :
    listObjectsV2 remotes db input reply now =
      listAfterToken remotes (consumeToken db id now).1
        (some rec.start_after) input reply now := by
  unfold listObjectsV2
  simp only [htok, hparse]
  rw [consumeToken_some db id now rec hlook]

theorem listObjectsV2_ok_cases (remotes : List S3Remote) (db : TokenDb)
    (input : ListObjectsV2Input)
    (reply : S3Remote → ListParams →
      Option (Except SdkServiceError ListObjectsDownstreamOutput))
    (now : Nat) (db2 : TokenDb) (o : ListObjectsV2Output) (sent : List String)
    (h : listObjectsV2 remotes db input reply now = (db2, .ok o, sent)) :
    ∃ db0 stored,
      listAfterToken remotes db0 stored input reply now = (db2, .ok o, sent) := by
  unfold listObjectsV2 at h
  split at h
  · exact ⟨db, none, h⟩
  · split at h
    · simp at h
    · split at h
      · simp at h
      · rename_i db3 rec hcons
        exact ⟨db3, some rec.start_after, h⟩

def ceRemote : S3Remote := { name := "lr", priority := 1, read_request := true }

def ceDownstream : ListObjectsDownstreamOutput :=
  { contents := some [{ key := none }], next_continuation_token := some "more" }

def ceInput : ListObjectsV2Input :=
  { continuation_token := none, start_after := none, pfx := none,
    delimiter := none, max_keys := none }

/-- Claim C6 counterexample — src/server/mod.rs:663..691: the downstream
reports more results (`next_continuation_token = some "more"`) and
`contents` is non-empty, yet no token is minted, because the last element
of `contents` carries no key (`.and_then(|e| e.key.clone())` yields
`None`); the claim's "exactly when the downstream reported more results
and contents is non-empty" is therefore false on this input. -/
theorem list_token_no_mint_without_key :
    listObjectsV2 [ceRemote] { recs := [], fresh := 0 } ceInput
      (fun _ _ => some (.ok ceDownstream)) 7 =
      ({ recs := [], fresh := 0 },
        .ok { contents := some [{ key := none }],
              continuation_token := none,
              next_continuation_token := none },
        ["lr"])
    ∧ ceDownstream.next_continuation_token ≠ none
    ∧ ceDownstream.contents ≠ some [] ∧ ceDownstream.contents ≠ none :=
  ⟨by decide, by decide, by decide, by decide⟩

/-- Claim C6 (amended) — src/server/mod.rs:580..694: (i) the client's
continuation token is echoed; (ii) a continuation token that resolves to
a stored record is consumed and its `start_after` drives the downstream
call, taking precedence over the client's `start_after`; (iii) on a
routed downstream success a new token is minted exactly when the
downstream reported more results and the last element of `contents`
carries a key; (iv) a minted token maps, in the resulting store, to a
record holding the last key of the returned page; (v) feeding the minted
token back resumes from that key: the second call consumes the record
and uses its `start_after` — the last key of the prior page — as the
effective `start_after`. -/
theorem list_token_roundtrip (remotes : List S3Remote) (db : TokenDb)
    (input : ListObjectsV2Input)
    (reply : S3Remote → ListParams →
      Option (Except SdkServiceError ListObjectsDownstreamOutput))
    (now : Nat) :
    (∀ db2 o sent,
        listObjectsV2 remotes db input reply now = (db2, .ok o, sent) →
        o.continuation_token = input.continuation_token)
    ∧ (∀ tok id rec, input.continuation_token = some tok →
        parseOid tok = some id → lookupToken db id = some rec →
        listObjectsV2 remotes db input reply now =
          listAfterToken remotes (consumeToken db id now).1
            (some rec.start_after) input reply now
        ∧ effectiveStartAfter (some rec.start_after) input =
            some rec.start_after)
    ∧ (∀ stored sent out nm db2 o sent2,
        routeRead (fun r => reply r
            { pfx := input.pfx, delimiter := input.delimiter,
              max_keys := input.max_keys,
              start_after := effectiveStartAfter stored input })
          (readOrder remotes) = (sent, some (.ok out, nm)) →
        listAfterToken remotes db stored input reply now =
          (db2, .ok o, sent2) →
        (o.next_continuation_token ≠ none ↔
          out.next_continuation_token ≠ none ∧
            lastContentsKey out.contents ≠ none))
    ∧ (∀ db2 o sent tok,
        listObjectsV2 remotes db input reply now = (db2, .ok o, sent) →
        o.next_continuation_token = some tok →
        ∃ id rec, parseOid tok = some id ∧ lookupToken db2 id = some rec ∧
          some rec.start_after = lastContentsKey o.contents)
    ∧ (∀ db2 o sent tok (input2 : ListObjectsV2Input)
        (reply2 : S3Remote → ListParams →
          Option (Except SdkServiceError ListObjectsDownstreamOutput))
        (now2 : Nat),
        listObjectsV2 remotes db input reply now = (db2, .ok o, sent) →
        o.next_continuation_token = some tok →
        input2.continuation_token = some tok →
        ∃ id rec, parseOid tok = some id ∧ lookupToken db2 id = some rec ∧
          some rec.start_after = lastContentsKey o.contents ∧
          listObjectsV2 remotes db2 input2 reply2 now2 =
            listAfterToken remotes (consumeToken db2 id now2).1
              (some rec.start_after) input2 reply2 now2 ∧
          effectiveStartAfter (some rec.start_after) input2 =
            some rec.start_after) := by
  refine ⟨?_, ?_, ?_, ?_, ?_⟩
  · intro db2 o sent h
    obtain ⟨db0, stored, hlat⟩ :=
      listObjectsV2_ok_cases remotes db input reply now db2 o sent h
    exact (listAfterToken_ok_props remotes db0 stored input reply now
      db2 o sent hlat).1
  · intro tok id rec htok hparse hlook
    exact ⟨listObjectsV2_token_resolution remotes db input reply now
      tok id rec htok hparse hlook, rfl⟩
  · intro stored sent out nm db2 o sent2 hroute hlat
    unfold listAfterToken at hlat
    rw [hroute] at hlat
    simp only [Prod.mk.injEq, Except.ok.injEq] at hlat
    obtain ⟨hdb, hobj, hsent⟩ := hlat
    rw [← hobj]
    exact (mintNext_spec db out now).2
  · intro db2 o sent tok h hnext
    obtain ⟨db0, stored, hlat⟩ :=
      listObjectsV2_ok_cases remotes db input reply now db2 o sent h
    exact (listAfterToken_ok_props remotes db0 stored input reply now
      db2 o sent hlat).2 tok hnext
  · intro db2 o sent tok input2 reply2 now2 h hnext htok2
    obtain ⟨db0, stored, hlat⟩ :=
      listObjectsV2_ok_cases remotes db input reply now db2 o sent h
    obtain ⟨id, rec, hp, hl, hs⟩ :=
      (listAfterToken_ok_props remotes db0 stored input reply now
        db2 o sent hlat).2 tok hnext
    exact ⟨id, rec, hp, hl, hs,
      listObjectsV2_token_resolution remotes db2 input2 reply2 now2
        tok id rec htok2 hp hl, rfl⟩

def lrDb2 : TokenDb :=
  { recs := [(0, { start_after := "a/2", created_at := 9,
                   consumed_at := none })], fresh := 1 }

def lrOut : ListObjectsDownstreamOutput :=
  { contents := some [{ key := some "a/1" }, { key := some "a/2" }],
    next_continuation_token := some "more" }

def lrInput : ListObjectsV2Input :=
  { continuation_token := none, start_after := some "client", pfx := none,
    delimiter := none, max_keys := some 2 }

def lrInput2 : ListObjectsV2Input :=
  { continuation_token := some (toHexOid 0), start_after := some "client",
    pfx := none, delimiter := none, max_keys := some 2 }

def lrClientOut : ListObjectsV2Output :=
  { contents := some [{ key := some "a/1" }, { key := some "a/2" }],
    continuation_token := none,
    next_continuation_token := some (toHexOid 0) }

/-- Claim C6 witness: the token minted by a concrete first page maps to
its last key "a/2", and feeding it back resolves to a second call whose
effective `start_after` is "a/2", overriding the client's "client". -/
theorem list_token_roundtrip_witness :
    ∃ id rec, parseOid (toHexOid 0) = some id ∧
      lookupToken lrDb2 id = some rec ∧
      some rec.start_after = lastContentsKey lrClientOut.contents ∧
      listObjectsV2 [ceRemote] lrDb2 lrInput2 (fun _ _ => none) 10 =
        listAfterToken [ceRemote] (consumeToken lrDb2 id 10).1
          (some rec.start_after) lrInput2 (fun _ _ => none) 10 ∧
      effectiveStartAfter (some rec.start_after) lrInput2 =
        some rec.start_after :=
  (list_token_roundtrip [ceRemote] { recs := [], fresh := 0 } lrInput
    (fun _ _ => some (.ok lrOut)) 9).2.2.2.2 lrDb2 lrClientOut ["lr"]
    (toHexOid 0) lrInput2 (fun _ _ => none) 10
    (by decide) (by decide) (by decide)

/-- Claim C7 — src/server/mod.rs:738..762 (`initiate_multipart`) and
src/server/mod.rs:587..618 (token resolution of `list_objects_v2`): an
upload id that does not parse, refers to no record, or refers to a
terminal record (the `find_one` filter requires `completed_at` and
`aborted_at` unset, so a terminal record is not found) makes
`upload_part` and `complete_multipart_upload` return `InvalidToken` with
no remote contacted and nothing persisted; a continuation token that does
not parse or refers to no stored record makes `list_objects_v2` return
`InvalidToken` with no remote contacted and the store unchanged. -/
theorem invalid_token_rejection {T : Type} (remotes : List S3Remote)
    (mdb : MpDb) (tdb : TokenDb) (uid : OidString)
    (f : S3Remote → RemoteMultipartUploadId → Option (Except SdkServiceError T))
    (g : S3Remote → RemoteMultipartUploadId → Option (Except SdkServiceError Unit))
    (bucket key : Option String) (now : Nat)
    (input : ListObjectsV2Input) (tok : OidString)
    (reply : S3Remote → ListParams →
      Option (Except SdkServiceError ListObjectsDownstreamOutput))
    (hmp : ∀ id, parseOid uid = some id → findLive mdb id = none)
    (htok : input.continuation_token = some tok)
    (hlist : ∀ id, parseOid tok = some id → lookupToken tdb id = none) :
    (∀ id r, lookupMultipart mdb id = some r →
      (r.completed_at ≠ none ∨ r.aborted_at ≠ none) → findLive mdb id = none)
    ∧ uploadPart remotes mdb uid f =
        (.error (S3Error.new .InvalidToken), none, [])
    ∧ completeMultipartUpload remotes mdb uid g bucket key now =
        (.error (S3Error.new .InvalidToken), none, [])
    ∧ listObjectsV2 remotes tdb input reply now =
        (tdb, .error (S3Error.new .InvalidToken), []) := by
  have hinit : initiateMultipart remotes mdb uid =
      .error (S3Error.new .InvalidToken) := by
    unfold initiateMultipart
    rcases hp : parseOid uid with _ | id
    · rfl
    · simp [hmp id hp]
  refine ⟨?_, ?_, ?_, ?_⟩
  · intro id r hlk hterm
    unfold findLive
    rw [hlk]
    rcases hterm with h1 | h1 <;> simp [h1]
  · unfold uploadPart
    rw [hinit]
  · unfold completeMultipartUpload
    rw [hinit]
  · unfold listObjectsV2
    simp only [htok]
    rcases hp : parseOid tok with _ | id
    · rfl
    · have hcons : consumeToken tdb id now = (tdb, none) := by
        unfold consumeToken
        rw [hlist id hp]
      simp [hcons]

def cxTermDb : MpDb :=
  { recs := [(5, { upload_ids := [cxUpload], created_at := 0,
                   completed_at := some 1, aborted_at := none })], fresh := 6 }

def ceInput2 : ListObjectsV2Input :=
  { continuation_token := some (some 99), start_after := none, pfx := none,
    delimiter := none, max_keys := none }

/-- Claim C7 witness: an upload id referring to a terminal record
(completed) and a continuation token referring to no stored record are
both rejected with `InvalidToken`, with no remote contacted. -/
theorem invalid_token_rejection_witness :
    uploadPart (T := Nat) [cxRemote] cxTermDb (some 5)
      (fun _ _ => some (.ok 1)) =
      (.error (S3Error.new .InvalidToken), none, [])
    ∧ listObjectsV2 [cxRemote] { recs := [], fresh := 0 } ceInput2
      (fun _ _ => none) 3 =
      ({ recs := [], fresh := 0 }, .error (S3Error.new .InvalidToken), []) :=
  ⟨(invalid_token_rejection [cxRemote] cxTermDb { recs := [], fresh := 0 }
      (some 5) (fun _ _ => some (.ok 1)) (fun _ _ => some (.ok ()))
      (some "b") (some "k") 3 ceInput2 (some 99) (fun _ _ => none)
      (by intro id h; cases h; decide) (by decide)
      (by intro id h; cases h; decide)).2.1,
   (invalid_token_rejection [cxRemote] cxTermDb { recs := [], fresh := 0 }
      (some 5) (fun _ _ => some (.ok 1)) (fun _ _ => some (.ok ()))
      (some "b") (some "k") 3 ceInput2 (some 99) (fun _ _ => none)
      (by intro id h; cases h; decide) (by decide)
      (by intro id h; cases h; decide)).2.2.2⟩

/-- Claim C8 — src/server/mod.rs:64..106: `list_buckets` always returns
exactly one bucket named after the configured virtual bucket;
`head_bucket` and `get_bucket_location` succeed iff the request's bucket
equals the configured one and return `NoSuchBucket` otherwise; none of
the three contacts a remote. -/
theorem bucket_intercepts (bucket reqBucket : String) :
    listBuckets bucket =
      ({ buckets := some [{ creation_date := none, name := some bucket }],
         owner := none }, [])
    ∧ (headBucket bucket reqBucket = (.ok (), []) ↔ reqBucket = bucket)
    ∧ (reqBucket ≠ bucket →
        headBucket bucket reqBucket = (.error (S3Error.new .NoSuchBucket), []))
    ∧ (getBucketLocation bucket reqBucket = (.ok (), []) ↔ reqBucket = bucket)
    ∧ (reqBucket ≠ bucket →
        getBucketLocation bucket reqBucket =
          (.error (S3Error.new .NoSuchBucket), []))
    ∧ (headBucket bucket reqBucket).2 = []
    ∧ (getBucketLocation bucket reqBucket).2 = [] := by
  by_cases h : reqBucket = bucket <;>
    simp [listBuckets, headBucket, getBucketLocation, h]

/-- Claim C8 witness: the configured bucket "vb" accepts itself and
rejects "other". -/
theorem bucket_intercepts_witness :
    headBucket "vb" "other" = (.error (S3Error.new .NoSuchBucket), []) :=
  (bucket_intercepts "vb" "other").2.2.1 (by decide)

theorem collectCreateIds_no_ok
    (l : List (String × Except SdkServiceError CreateMultipartUploadSdkOutput))
    (h : ∀ p ∈ l, ∀ o, p.2 ≠ Except.ok o) :
    collectCreateIds l = some [] := by
  induction l with
  | nil => rfl
  | cons hd tl ih =>
      rcases hd with ⟨n, res⟩
      rcases res with e | o
      · exact ih fun p hp => h p (List.mem_cons_of_mem _ hp)
      · exact absurd rfl (h (n, .ok o) (List.mem_cons_self _ _) o)

/-- Claim C9 — src/server/mod.rs:293..367: when no remote returns a
successful reply (unreachable or service error alike), the handler still
inserts a `MultipartUploadIds` record with an empty `upload_ids` set and
returns success carrying the fresh record id as the client-visible
upload id. -/
theorem create_multipart_no_success (remotes : List S3Remote)
    (reply : S3Remote →
      Option (Except SdkServiceError CreateMultipartUploadSdkOutput))
    (db : MpDb) (now : Nat) (bucket key : Option String)
    (hnone : ∀ r ∈ remotes, ∀ o, reply r ≠ some (.ok o)) :
    createMultipartUpload remotes reply db now bucket key =
      some ({ recs := (db.fresh,
                { upload_ids := [], created_at := now,
                  completed_at := none, aborted_at := none }) :: db.recs,
              fresh := db.fresh + 1 },
        .ok { bucket := bucket, key := key,
              upload_id := some (toHexOid db.fresh) }) := by
  have hids : collectCreateIds (collectReplies remotes reply) = some [] := by
    apply collectCreateIds_no_ok
    intro p hp o hpo
    rcases (mem_collectReplies remotes reply p).mp hp with ⟨r, hr, _, hres⟩
    exact hnone r hr o (hpo ▸ hres)
  unfold createMultipartUpload
  rw [hids]
  rfl

/-- Claim C9 witness: one unreachable remote and nothing else still
creates an empty-set record and replies with the fresh upload id. -/
theorem create_multipart_no_success_witness :
    createMultipartUpload [cxRemote] (fun _ => none)
      { recs := [], fresh := 0 } 3 (some "b") (some "k") =
      some ({ recs := [(0, { upload_ids := [], created_at := 3,
                             completed_at := none, aborted_at := none })],
              fresh := 1 },
        .ok { bucket := some "b", key := some "k",
              upload_id := some (toHexOid 0) }) :=
  create_multipart_no_success [cxRemote] (fun _ => none)
    { recs := [], fresh := 0 } 3 (some "b") (some "k")
    (by intro r hr o h; cases h)

theorem collectCreateIds_none_iff
    (l : List (String × Except SdkServiceError CreateMultipartUploadSdkOutput)) :
    collectCreateIds l = none ↔
      ∃ p ∈ l, ∃ o, p.2 = Except.ok o ∧ o.upload_id = none := by
  induction l with
  | nil => simp [collectCreateIds]
  | cons hd tl ih =>
      rcases hd with ⟨n, res⟩
      rcases res with e | o
      · rw [show collectCreateIds ((n, Except.error e) :: tl) =
            collectCreateIds tl from rfl, ih]
        constructor
        · rintro ⟨p, hp, o, ho, hn⟩
          exact ⟨p, List.mem_cons_of_mem _ hp, o, ho, hn⟩
        · rintro ⟨p, hp, o, ho, hn⟩
          rcases List.mem_cons.mp hp with rfl | hp
          · simp at ho
          · exact ⟨p, hp, o, ho, hn⟩
      · rcases ho : o.upload_id with _ | uid
        · simp only [collectCreateIds, ho]
          constructor
          · intro _
            exact ⟨(n, .ok o), List.mem_cons_self _ _, o, rfl, ho⟩
          · intro _
            trivial
        · simp only [collectCreateIds, ho, Option.map_eq_none']
          rw [ih]
          constructor
          · rintro ⟨p, hp, o2, ho2, hn⟩
            exact ⟨p, List.mem_cons_of_mem _ hp, o2, ho2, hn⟩
          · rintro ⟨p, hp, o2, ho2, hn⟩
            rcases List.mem_cons.mp hp with rfl | hp
            · have : o = o2 := Except.ok.inj ho2
              rw [← this] at hn
              rw [ho] at hn
              cases hn
            · exact ⟨p, hp, o2, ho2, hn⟩

theorem createMultipartUpload_none_iff (remotes : List S3Remote)
    (reply : S3Remote →
      Option (Except SdkServiceError CreateMultipartUploadSdkOutput))
    (db : MpDb) (now : Nat) (bucket key : Option String) :
    createMultipartUpload remotes reply db now bucket key = none ↔
      collectCreateIds (collectReplies remotes reply) = none := by
  unfold createMultipartUpload
  rcases h : collectCreateIds (collectReplies remotes reply) with _ | ids <;>
    simp

/-- Claim C10 — src/server/mod.rs:324..336: the handler panics
(`expect "upload_id missing"`, modelled by the `none` result) exactly
when some remote's successful `CreateMultipartUpload` reply carries no
`upload_id`; under the precondition that every successful reply carries
an upload id the handler is total (returns `some`). -/
theorem create_multipart_panic (remotes : List S3Remote)
    (reply : S3Remote →
      Option (Except SdkServiceError CreateMultipartUploadSdkOutput))
    (db : MpDb) (now : Nat) (bucket key : Option String) :
    (createMultipartUpload remotes reply db now bucket key = none ↔
      ∃ r ∈ remotes, ∃ o, reply r = some (.ok o) ∧ o.upload_id = none)
    ∧ ((∀ r ∈ remotes, ∀ o, reply r = some (.ok o) → o.upload_id ≠ none) →
      ∃ out, createMultipartUpload remotes reply db now bucket key =
        some out) := by
  have hiff : createMultipartUpload remotes reply db now bucket key = none ↔
      ∃ r ∈ remotes, ∃ o, reply r = some (.ok o) ∧ o.upload_id = none := by
    rw [createMultipartUpload_none_iff, collectCreateIds_none_iff]
    constructor
    · rintro ⟨p, hp, o, ho, hn⟩
      rcases (mem_collectReplies remotes reply p).mp hp with ⟨r, hr, _, hres⟩
      exact ⟨r, hr, o, by rw [hres, ho], hn⟩
    · rintro ⟨r, hr, o, hres, hn⟩
      exact ⟨(r.name, .ok o),
        (mem_collectReplies remotes reply (r.name, .ok o)).mpr ⟨r, hr, rfl, hres⟩,
        o, rfl, hn⟩
  refine ⟨hiff, ?_⟩
  intro hall
  rcases hv : createMultipartUpload remotes reply db now bucket key
    with _ | out
  · rcases hiff.mp hv with ⟨r, hr, o, hres, hn⟩
    exact absurd hn (hall r hr o hres)
  · exact ⟨out, rfl⟩

/-- Claim C10 witness: one remote whose successful reply carries no
upload id makes the handler panic (`none`). -/
theorem create_multipart_panic_witness :
    createMultipartUpload [cxRemote] (fun _ => some (.ok { upload_id := none }))
      { recs := [], fresh := 0 } 3 (some "b") (some "k") = none :=
  (create_multipart_panic [cxRemote]
    (fun _ => some (.ok { upload_id := none }))
    { recs := [], fresh := 0 } 3 (some "b") (some "k")).1.mpr
    ⟨cxRemote, by decide, { upload_id := none }, rfl, rfl⟩
